import Mathlib

/-
Shallow embedding of `main.py` (Trade012545/dhan_rest): a FastAPI proxy with a
single kline endpoint `get_klines`.  Python runtime values that can appear in a
decoded JSON response (or in a pandas cell) are modelled by `PyVal`; floats are
modelled by their exact decimal value `m / 10 ^ e` (the inputs we reason about
are short decimal literals, for which Python's shortest round-trip `str` agrees
with the decimal rendering used here).  Exceptions are modelled by `PyExc`;
`KeyError` and `TypeError` are the classes caught by the handler at the end of
the transform block, `ValueError` is not in that handler's class tuple.
-/

set_option autoImplicit false

namespace DhanRest

/-- A Python value, as produced by decoding JSON (plus `None`/`bool`, which the
json module can also produce). -/
inductive PyVal where
  | none
  | bool (b : Bool)
  | int (n : Int)
  /-- A float with exact decimal value `m / 10 ^ e`. -/
  | float (m : Int) (e : Nat)
  | str (s : String)
  | list (xs : List PyVal)
  | dict (kvs : List (String × PyVal))

/-- The Python exception classes that can arise inside the transform block of
`get_klines`.  The `except (KeyError, TypeError)` clause catches the first two
but not `ValueError`. -/
inductive PyExc where
  | keyError (k : String)
  | typeError (m : String)
  | valueError (m : String)
deriving DecidableEq, Repr

/-- Which exceptions the `except (KeyError, TypeError)` clause at the end of
the transform block catches. -/
def isCaught : PyExc → Bool
  | .keyError _ => true
  | .typeError _ => true
  | .valueError _ => false

/-- The text of the exception, as interpolated into the `detail` message
(`str(KeyError(k))` is the repr of the key, i.e. quoted). -/
def excMsg : PyExc → String
  | .keyError k => "\x27" ++ k ++ "\x27"
  | .typeError m => m
  | .valueError m => m

/-- Subscription `d[k]` for a string key `k`: a lookup on a dict, `KeyError` when the key is
absent, `TypeError` on every non-dict value. -/
def getItem (d : PyVal) (k : String) : Except PyExc PyVal :=
  match d with
  | .dict kvs =>
    match kvs.lookup k with
    | some v => .ok v
    | Option.none => .error (.keyError k)
  | _ => .error (.typeError "value is not subscriptable with a string key")

/-- Iteration `iter(v)`, as forced by `zip`: a list yields its elements, a string yields
its characters as one-character strings, a dict yields its keys; every other
value raises `TypeError`. -/
def pyIter : PyVal → Except PyExc (List PyVal)
  | .list xs => .ok xs
  | .str s => .ok (s.toList.map (fun ch => .str (String.mk [ch])))
  | .dict kvs => .ok (kvs.map (fun kv => .str kv.1))
  | _ => .error (.typeError "object is not iterable")

/-- The value of a digit list read in base 10. -/
def digitsToNat (ds : List Char) : Nat :=
  ds.foldl (fun a ch => a * 10 + (ch.toNat - 48)) 0

/-- The characters of a string with leading and trailing whitespace removed
(the stripping `int()` performs before parsing). -/
def stripWS (s : String) : List Char :=
  ((s.toList.dropWhile Char.isWhitespace).reverse.dropWhile Char.isWhitespace).reverse

/-- Conversion `int(s)` for a string: optional surrounding whitespace, an optional sign,
then a non-empty run of decimal digits; anything else raises `ValueError`. -/
def parseIntStr (s : String) : Option Int :=
  match stripWS s with
  | [] => Option.none
  | c :: cs =>
    if c = '-' then
      if !cs.isEmpty && cs.all Char.isDigit then some (-(digitsToNat cs : Int)) else Option.none
    else if c = '+' then
      if !cs.isEmpty && cs.all Char.isDigit then some ((digitsToNat cs : Int)) else Option.none
    else if (c :: cs).all Char.isDigit then some ((digitsToNat (c :: cs) : Int)) else Option.none

/-- Conversion `int(v)`: identity on ints, `True`/`False` to `1`/`0`, truncation toward
zero on floats (`Int.tdiv` is T-division), base-10 parsing on strings
(`ValueError` on failure), `TypeError` on `None`, lists and dicts. -/
def pyInt : PyVal → Except PyExc Int
  | .int n => .ok n
  | .bool b => .ok (if b then 1 else 0)
  | .float m e => .ok (Int.tdiv m ((10 : Int) ^ e))
  | .str s =>
    match parseIntStr s with
    | some n => .ok n
    | Option.none => .error (.valueError ("invalid literal for int() with base 10: \x27" ++ s ++ "\x27"))
  | .none => .error (.typeError "int() argument must be a number, not NoneType")
  | .list _ => .error (.typeError "int() argument must be a number, not list")
  | .dict _ => .error (.typeError "int() argument must be a number, not dict")

/-- Holds (as `true`) exactly when `int(v)` succeeds. -/
def intCoercible (v : PyVal) : Bool :=
  match pyInt v with
  | .ok _ => true
  | .error _ => false

/-- The value of `int(v)` when it succeeds (`0` otherwise). -/
def pyIntD (v : PyVal) : Int :=
  match pyInt v with
  | .ok n => n
  | .error _ => 0

/-- Strip trailing zero decimal digits from a float mantissa/exponent pair. -/
def normFloat : Int → Nat → Int × Nat
  | m, 0 => (m, 0)
  | m, e + 1 => if m % 10 == 0 then normFloat (Int.tdiv m 10) e else (m, e + 1)

/-- Left-pad a digit string with zeros to width `w`. -/
def padZeros (w : Nat) (s : String) : String :=
  if s.length ≥ w then s else String.mk (List.replicate (w - s.length) '0') ++ s

/-- Serialization `str` of a float: sign, integer part, a point, and the fractional digits
with trailing zeros removed; integral floats render with a trailing `.0`,
matching Python's shortest round-trip formatting on decimal literals. -/
def renderFloat (m : Int) (e : Nat) : String :=
  let p := normFloat m e
  let sign := if p.1 < 0 then "-" else ""
  let a := p.1.natAbs
  if p.2 = 0 then sign ++ toString a ++ ".0"
  else
    let q := 10 ^ p.2
    sign ++ toString (a / q) ++ "." ++ padZeros p.2 (toString (a % q))

mutual

/-- Python `repr(v)` (string escaping simplified to plain quoting; no value reasoned
about below contains a quote or backslash). -/
def pyRepr : PyVal → String
  | .none => "None"
  | .bool b => if b then "True" else "False"
  | .int n => toString n
  | .float m e => renderFloat m e
  | .str s => "\x27" ++ s ++ "\x27"
  | .list xs => "[" ++ pyReprList xs ++ "]"
  | .dict kvs => "\x7b" ++ pyReprKVs kvs ++ "\x7d"

/-- Python `repr` of the elements of a list, comma separated. -/
def pyReprList : List PyVal → String
  | [] => ""
  | [x] => pyRepr x
  | x :: y :: xs => pyRepr x ++ ", " ++ pyReprList (y :: xs)

/-- Python `repr` of the entries of a dict, comma separated. -/
def pyReprKVs : List (String × PyVal) → String
  | [] => ""
  | [kv] => "\x27" ++ kv.1 ++ "\x27: " ++ pyRepr kv.2
  | kv :: kv2 :: kvs => "\x27" ++ kv.1 ++ "\x27: " ++ pyRepr kv.2 ++ ", " ++ pyReprKVs (kv2 :: kvs)

end

/-- Serialization `str(v)`: the string itself on strings, `repr` on everything else. -/
def pyStr : PyVal → String
  | .str s => s
  | v => pyRepr v

/-- One output row of `get_klines`: the 6-element list
`[int(ts) * 1000, str(o), str(h), str(l), str(c), str(v)]` of line 120-127,
which always holds one integer followed by five strings. -/
structure KlineRow where
  ts : Int
  o : String
  h : String
  l : String
  c : String
  v : String
deriving DecidableEq, Repr

/-- The element type of `zipped_data`. -/
abbrev Tup6 := PyVal × PyVal × PyVal × PyVal × PyVal × PyVal

/-- Python `zip` of six lists: pairs up positions, stopping at the shortest list. -/
def zip6 : List PyVal → List PyVal → List PyVal → List PyVal → List PyVal → List PyVal → List Tup6
  | t :: ts, o :: os, h :: hs, l :: ls, c :: cs, v :: vs =>
    (t, o, h, l, c, v) :: zip6 ts os hs ls cs vs
  | _, _, _, _, _, _ => []

/-- One comprehension step: `[int(ts) * 1000, str(o), str(h), str(l), str(c), str(v)]`.
Only `int(ts)` can raise; `str` is total. -/
def rowOf (x : Tup6) : Except PyExc KlineRow :=
  match pyInt x.1 with
  | .ok n => .ok ⟨n * 1000, pyStr x.2.1, pyStr x.2.2.1, pyStr x.2.2.2.1,
      pyStr x.2.2.2.2.1, pyStr x.2.2.2.2.2⟩
  | .error e => .error e

/-- The list comprehension over `zipped_data`: rows in order, aborting on the
first exception (no partial list is ever returned). -/
def buildRows : List Tup6 → Except PyExc (List KlineRow)
  | [] => .ok []
  | x :: rest =>
    match rowOf x with
    | .error e => .error e
    | .ok r =>
      match buildRows rest with
      | .error e => .error e
      | .ok rs => .ok (r :: rs)

/-- Lines 107-130 of `main.py`: look up the six columns (in source order),
force each through `iter` via `zip`, and build the Binance-format rows. -/
def transcode (dhan_data : PyVal) : Except PyExc (List KlineRow) := do
  let tsv ← getItem dhan_data "timestamp"
  let ov ← getItem dhan_data "open"
  let hv ← getItem dhan_data "high"
  let lv ← getItem dhan_data "low"
  let cv ← getItem dhan_data "close"
  let vv ← getItem dhan_data "volume"
  let ts ← pyIter tsv
  let os ← pyIter ov
  let hs ← pyIter hv
  let ls ← pyIter lv
  let cs ← pyIter cv
  let vs ← pyIter vv
  buildRows (zip6 ts os hs ls cs vs)

/-! Date handling (lines 51-60).  A naive local `datetime` is represented by
its local wall-clock second count since the epoch: `datetime.fromtimestamp`
under a fixed UTC offset `off` (seconds) maps epoch seconds `t` to local
seconds `t + off` (the offset is a parameter; daylight-saving transitions are
outside this model, which fixes one offset per scenario).
`timedelta(days=30)` on a naive datetime shifts it by exactly `30 * 86400`
wall-clock seconds, and `strftime` with seconds precision drops any
sub-second remainder. -/

/-- Python truthiness of the optional integer query parameters: `None` and
`0` are falsy, every other integer is truthy. -/
def truthy : Option Int → Bool
  | Option.none => false
  | some n => n != 0

/-- Conversion `datetime.fromtimestamp(ms / 1000)` with UTC offset `off`, at the
whole-second precision that `strftime('%Y-%m-%d %H:%M:%S')` keeps: the float
`ms / 1000` has its sub-second part dropped (floor, as the `second` field of
the datetime), so the local second count is `⌊ms / 1000⌋ + off`. -/
def fromtimestampMs (off ms : Int) : Int :=
  Int.ediv ms 1000 + off

/-- Lines 52-57: use the caller bounds when `startTime and endTime` is truthy,
else `to_date = datetime.now()` and `from_date = to_date - timedelta(days=30)`.
`nowEpoch` is the current epoch second count. -/
def resolveDates (off nowEpoch : Int) (startTime endTime : Option Int) : Int × Int :=
  if truthy startTime && truthy endTime then
    (fromtimestampMs off (startTime.getD 0), fromtimestampMs off (endTime.getD 0))
  else
    (nowEpoch + off - 30 * 86400, nowEpoch + off)

/-- Gregorian civil date from a day count since 1970-01-01
(the standard era-based conversion): year, month, day. -/
def civilFromDays (z0 : Int) : Int × Nat × Nat :=
  let z := z0 + 719468
  let era := Int.ediv z 146097
  let doe := (z - era * 146097).toNat
  let yoe := (doe - doe / 1460 + doe / 36524 - doe / 146096) / 365
  let doy := doe - (365 * yoe + yoe / 4 - yoe / 100)
  let mp := (5 * doy + 2) / 153
  let d := doy - (153 * mp + 2) / 5 + 1
  let m := if mp < 10 then mp + 3 else mp - 9
  ((yoe : Int) + era * 400 + (if m ≤ 2 then 1 else 0), m, d)

/-- Formatting `strftime('%Y-%m-%d %H:%M:%S')` of a local datetime given as local
seconds since the epoch. -/
def fmtLocal (t : Int) : String :=
  let days := Int.ediv t 86400
  let sod := (Int.emod t 86400).toNat
  let ymd := civilFromDays days
  padZeros 4 (toString ymd.1.toNat) ++ "-" ++ padZeros 2 (toString ymd.2.1) ++ "-" ++
    padZeros 2 (toString ymd.2.2) ++ " " ++ padZeros 2 (toString (sod / 3600)) ++ ":" ++
    padZeros 2 (toString (sod % 3600 / 60)) ++ ":" ++ padZeros 2 (toString (sod % 60))

/-- Lines 59-60: the `from_date_str` and `to_date_str` sent upstream. -/
def resolveDateStrs (off nowEpoch : Int) (startTime endTime : Option Int) : String × String :=
  let dates := resolveDates off nowEpoch startTime endTime
  (fmtLocal dates.1, fmtLocal dates.2)

/-! The instrument directory and the facade (lines 34-105 and 137-139). -/

/-- One row of the `api-scrip-master.csv` dataframe, restricted to the columns
`get_klines` reads.  `securityId` is a pandas cell (integer or text in the
source dataset), the other columns are text. -/
structure InstrumentRow where
  tradingSymbol : String
  securityId : PyVal
  exchangeSegment : String
  instrument : String

/-- Line 41 and 46: `script_df[script_df['tradingSymbol'] == symbol]` filters
the rows whose `tradingSymbol` cell equals `symbol` exactly (case-sensitive),
and `.iloc[0]` takes the first such row when one exists (`.empty` otherwise). -/
def lookupInstrument (script_df : List InstrumentRow) (symbol : String) : Option InstrumentRow :=
  (script_df.filter (fun row => row.tradingSymbol == symbol)).head?

/-- The JSON body of the upstream POST (lines 77-84). -/
structure Payload where
  securityId : String
  exchangeSegment : String
  instrument : String
  interval : String
  fromDate : String
  toDate : String

/-- Lines 77-84: `securityId` is passed through `str`, the segment and
instrument type are passed as-is, together with the parsed interval and the
two formatted dates. -/
def mkPayload (instrument : InstrumentRow) (parsed_interval from_date_str to_date_str : String) :
    Payload :=
  { securityId := pyStr instrument.securityId
    exchangeSegment := instrument.exchangeSegment
    instrument := instrument.instrument
    interval := parsed_interval
    fromDate := from_date_str
    toDate := to_date_str }

/-- Line 64, `''.join(filter(str.isdigit, interval))`: the decimal digits of
the interval string, in order. -/
def digitsOf (s : String) : String :=
  String.mk (s.toList.filter Char.isDigit)

/-- Lines 62-68: keep the digit characters; when none remain, the raised
`ValueError` is caught and becomes the 400 detail message. -/
def parseInterval (interval : String) : Except String String :=
  let parsed_interval := digitsOf interval
  if parsed_interval = "" then
    .error ("Invalid interval format: \x27" ++ interval ++ "\x27")
  else
    .ok parsed_interval

/-- What the upstream exchange does with one POST: either the request raises
(transport error, or `raise_for_status` on a non-2xx response), or a 2xx
response is returned whose body parses as JSON (`some v`) or does not
(`Option.none`). -/
inductive UpstreamOutcome where
  | requestError (msg : String)
  | okBody (body : Option PyVal)

/-- The outcome of one call to `get_klines` as seen by the HTTP client:
a 200 with the transcoded rows, an `HTTPException` (status plus JSON body
`detail` message), or an exception that escapes every handler in the function,
which FastAPI turns into a bare 500 with no JSON `detail` body. -/
inductive KlinesResult where
  | ok (rows : List KlineRow)
  | httpError (status : Nat) (detail : String)
  | unhandled (exc : String)
deriving DecidableEq, Repr

/-- Holds (as `true`) exactly on the outcomes raised as `HTTPException`, i.e. those whose
response carries a JSON body with a `detail` message. -/
def hasDetailBody : KlinesResult → Bool
  | .httpError _ _ => true
  | _ => false

/-- Lines 90-135 after the payload is built.  A `RequestException` becomes a
500 with a detail message (lines 93-96).  When the 2xx body is not valid JSON,
the handler on line 100 evaluates `json.JSONDecodeError`; the module never
imports `json` (line 2-8 import `os`, `pandas`, `requests`, `fastapi`,
`datetime`, `traceback` only), so that lookup raises `NameError`, which no
enclosing handler catches.  A decoded body is transcoded; `KeyError` and
`TypeError` become the 500 of line 135, while an uncaught `ValueError`
(non-numeric timestamp string) escapes the function. -/
def handleUpstream : UpstreamOutcome → KlinesResult
  | .requestError msg => .httpError 500 ("Error calling DhanHQ API: " ++ msg)
  | .okBody Option.none => .unhandled "NameError: name \x27json\x27 is not defined"
  | .okBody (some dhan_data) =>
    match transcode dhan_data with
    | .ok rows => .ok rows
    | .error e =>
      if isCaught e then .httpError 500 ("Failed to parse DhanHQ response: " ++ excMsg e)
      else .unhandled (excMsg e)

/-- Lines 51-135: everything `get_klines` does after the instrument row is
found — resolve and format the date range, parse the interval (400 on
failure), POST the payload and handle the outcome. -/
def afterLookup (off nowEpoch : Int) (upstream : Payload → UpstreamOutcome)
    (instrument : InstrumentRow) (interval : String) (startTime endTime : Option Int) :
    KlinesResult :=
  let dateStrs := resolveDateStrs off nowEpoch startTime endTime
  match parseInterval interval with
  | .error detail => .httpError 400 detail
  | .ok parsed_interval =>
    handleUpstream (upstream (mkPayload instrument parsed_interval dateStrs.1 dateStrs.2))

/-- The endpoint `GET /oanda/api/v1/klines` (lines 34-135).  `script_df` is the
loaded instrument dataframe, `off`/`nowEpoch` fix the local clock, and
`upstream` is the behaviour of the DhanHQ endpoint for each possible payload.
An unknown symbol is rejected with a 404 naming the symbol (lines 43-44)
before anything else is looked at. -/
def get_klines (script_df : List InstrumentRow) (off nowEpoch : Int)
    (upstream : Payload → UpstreamOutcome)
    (symbol interval : String) (startTime endTime : Option Int) : KlinesResult :=
  match lookupInstrument script_df symbol with
  | Option.none =>
    .httpError 404 ("Instrument with trading symbol \x27" ++ symbol ++ "\x27 not found.")
  | some instrument => afterLookup off nowEpoch upstream instrument interval startTime endTime

/-! Spec-side definitions used to compare the code against the claims. -/

/-- The row the claims predict at one position once the timestamp conversion is
written as the code performs it: `int(timestamp)` (read off via `pyIntD`)
scaled to milliseconds, and the five OHLCV fields through `str`. -/
def specRow6 (x : Tup6) : KlineRow :=
  ⟨pyIntD x.1 * 1000, pyStr x.2.1, pyStr x.2.2.1, pyStr x.2.2.2.1,
    pyStr x.2.2.2.2.1, pyStr x.2.2.2.2.2⟩

/-- The numeric value of an upstream cell, as the claim C1 reads the
expression `timestamp[i] * 1000` (spec-side interpretation, for comparison
with what the code emits). -/
def specNumValue : PyVal → ℚ
  | .int n => (n : ℚ)
  | .float m e => (m : ℚ) / (10 : ℚ) ^ e
  | _ => 0

/-! Helper lemmas. -/

instance {ε α : Type} [DecidableEq ε] [DecidableEq α] : DecidableEq (Except ε α) := fun x y =>
  match x, y with
  | .ok a, .ok b =>
    match decEq a b with
    | isTrue h => isTrue (by rw [h])
    | isFalse h => isFalse (fun hc => h (Except.ok.inj hc))
  | .error a, .error b =>
    match decEq a b with
    | isTrue h => isTrue (by rw [h])
    | isFalse h => isFalse (fun hc => h (Except.error.inj hc))
  | .ok _, .error _ => isFalse (fun hc => Except.noConfusion hc)
  | .error _, .ok _ => isFalse (fun hc => Except.noConfusion hc)

theorem except_bind_ok_inv {α β : Type} {x : Except PyExc α} {f : α → Except PyExc β} {b : β}
    (h : x >>= f = .ok b) : ∃ a, x = .ok a ∧ f a = .ok b := by
  cases x with
  | ok a => exact ⟨a, rfl, h⟩
  | error e => exact absurd h (by simp [Bind.bind, Except.bind])

/-- When all six columns are lists, `transcode` reduces to the comprehension
over their `zip`. -/
theorem transcode_eq_of_lists (d : PyVal) (ts os hs ls cs vs : List PyVal)
    (h1 : getItem d "timestamp" = .ok (.list ts)) (h2 : getItem d "open" = .ok (.list os))
    (h3 : getItem d "high" = .ok (.list hs)) (h4 : getItem d "low" = .ok (.list ls))
    (h5 : getItem d "close" = .ok (.list cs)) (h6 : getItem d "volume" = .ok (.list vs)) :
    transcode d = buildRows (zip6 ts os hs ls cs vs) := by
  unfold transcode
  simp only [h1, h2, h3, h4, h5, h6]
  rfl

/-- A successful `transcode` is a successful comprehension. -/
theorem transcode_ok_inv (d : PyVal) (rows : List KlineRow) (h : transcode d = .ok rows) :
    ∃ L, buildRows L = .ok rows := by
  unfold transcode at h
  obtain ⟨tsv, -, h⟩ := except_bind_ok_inv h
  obtain ⟨ov, -, h⟩ := except_bind_ok_inv h
  obtain ⟨hv, -, h⟩ := except_bind_ok_inv h
  obtain ⟨lv, -, h⟩ := except_bind_ok_inv h
  obtain ⟨cv, -, h⟩ := except_bind_ok_inv h
  obtain ⟨vv, -, h⟩ := except_bind_ok_inv h
  obtain ⟨ts, -, h⟩ := except_bind_ok_inv h
  obtain ⟨os, -, h⟩ := except_bind_ok_inv h
  obtain ⟨hs, -, h⟩ := except_bind_ok_inv h
  obtain ⟨ls, -, h⟩ := except_bind_ok_inv h
  obtain ⟨cs, -, h⟩ := except_bind_ok_inv h
  obtain ⟨vs, -, h⟩ := except_bind_ok_inv h
  exact ⟨_, h⟩

/-- A coercible timestamp makes one comprehension step succeed with the row
the (amended) claims predict. -/
theorem rowOf_coercible (x : Tup6) (hx : intCoercible x.1 = true) :
    rowOf x = .ok (specRow6 x) := by
  unfold intCoercible at hx
  unfold rowOf specRow6 pyIntD
  cases hp : pyInt x.1 with
  | ok n => rfl
  | error e => rw [hp] at hx; cases hx

theorem buildRows_eq_map (L : List Tup6) (h : ∀ x ∈ L, intCoercible x.1 = true) :
    buildRows L = .ok (L.map specRow6) := by
  induction L with
  | nil => rfl
  | cons x L ih =>
    have hx := rowOf_coercible x (h x (List.mem_cons_self x L))
    have hL := ih (fun y hy => h y (List.mem_cons_of_mem x hy))
    simp [buildRows, hx, hL]

theorem zip6_length (ts os hs ls cs vs : List PyVal) :
    (zip6 ts os hs ls cs vs).length =
      min ts.length (min os.length (min hs.length (min ls.length (min cs.length vs.length)))) := by
  induction ts generalizing os hs ls cs vs with
  | nil =>
    rw [show zip6 [] os hs ls cs vs = [] from rfl]
    simp
  | cons t ts ih =>
    cases os with
    | nil => rw [show zip6 (t :: ts) [] hs ls cs vs = [] from rfl]; simp
    | cons o os =>
      cases hs with
      | nil => rw [show zip6 (t :: ts) (o :: os) [] ls cs vs = [] from rfl]; simp
      | cons hh hs =>
        cases ls with
        | nil => rw [show zip6 (t :: ts) (o :: os) (hh :: hs) [] cs vs = [] from rfl]; simp
        | cons ll ls =>
          cases cs with
          | nil =>
            rw [show zip6 (t :: ts) (o :: os) (hh :: hs) (ll :: ls) [] vs = [] from rfl]; simp
          | cons cc cs =>
            cases vs with
            | nil =>
              rw [show zip6 (t :: ts) (o :: os) (hh :: hs) (ll :: ls) (cc :: cs) [] = []
                from rfl]
              simp
            | cons vv vs =>
              rw [show zip6 (t :: ts) (o :: os) (hh :: hs) (ll :: ls) (cc :: cs) (vv :: vs) =
                (t, o, hh, ll, cc, vv) :: zip6 ts os hs ls cs vs from rfl]
              rw [List.length_cons, ih]
              simp only [List.length_cons]
              omega

theorem buildRows_ts_dvd (L : List Tup6) :
    ∀ rows, buildRows L = .ok rows → ∀ r ∈ rows, (1000 : Int) ∣ r.ts := by
  induction L with
  | nil =>
    intro rows h r hr
    unfold buildRows at h
    cases h
    cases hr
  | cons x L ih =>
    intro rows h r hr
    unfold buildRows at h
    cases hx : rowOf x with
    | error e => rw [hx] at h; cases h
    | ok r0 =>
      rw [hx] at h
      cases hrest : buildRows L with
      | error e => rw [hrest] at h; cases h
      | ok rs =>
        rw [hrest] at h
        cases h
        rcases List.mem_cons.mp hr with hr0 | hrs
        · subst hr0
          unfold rowOf at hx
          cases hp : pyInt x.1 with
          | ok n =>
            rw [hp] at hx
            cases hx
            exact dvd_mul_left 1000 n
          | error e => rw [hp] at hx; cases hx
        · exact ih rs hrest r hrs

theorem tdiv_pow10 (m : Int) (e : Nat) :
    Int.tdiv m ((10 : Int) ^ e) = m.sign * ((m.natAbs / 10 ^ e : Nat) : Int) := by
  have h10 : ((10 : Int) ^ e) = ((10 ^ e : Nat) : Int) := by push_cast; ring
  rw [h10]
  cases m with
  | ofNat a =>
    cases a with
    | zero => simp
    | succ a =>
      show Int.ofNat ((a + 1) / 10 ^ e) = 1 * Int.ofNat ((a + 1) / 10 ^ e)
      rw [one_mul]
  | negSucc a =>
    show -Int.ofNat ((a + 1) / 10 ^ e) = -1 * Int.ofNat ((a + 1) / 10 ^ e)
    rw [neg_one_mul]

/-! Claim C10. -/

/-- An upstream response with a fractional timestamp, for the C10 witness. -/
def c10Input : PyVal := .dict [("timestamp", .list [.float 19 1]), ("open", .list [.int 2]),
  ("high", .list [.int 3]), ("low", .list [.int 1]), ("close", .list [.int 2]),
  ("volume", .list [.int 7])]

/-- C10: the transcoder emits `int(ts) * 1000`, so every timestamp in every
attainable output row is an exact multiple of 1000, and on a float the
conversion truncates toward zero: `int(m / 10^e)` is the sign of `m` times the
magnitude `|m| / 10^e` rounded down — fractional seconds are discarded, not
rounded. -/
theorem C10_timestamp_truncation :
    (∀ (d : PyVal) (rows : List KlineRow), transcode d = .ok rows →
      ∀ r ∈ rows, (1000 : Int) ∣ r.ts) ∧
    (∀ (m : Int) (e : Nat),
      pyInt (.float m e) = .ok (m.sign * ((m.natAbs / 10 ^ e : Nat) : Int))) := by
  constructor
  · intro d rows h r hr
    obtain ⟨L, hL⟩ := transcode_ok_inv d rows h
    exact buildRows_ts_dvd L rows hL r hr
  · intro m e
    show Except.ok (Int.tdiv m ((10 : Int) ^ e)) = _
    rw [tdiv_pow10]

/-- Witness for C10 at a concrete response: the fractional timestamp `1.9`
becomes `1000` (a multiple of 1000), and `int(-1.9)` is `-1`. -/
theorem C10_timestamp_truncation_witness :
    ((1000 : Int) ∣ (KlineRow.mk 1000 "2" "3" "1" "2" "7").ts) ∧
    pyInt (.float (-19) 1) =
      .ok ((-19 : Int).sign * ((((-19 : Int).natAbs / 10 ^ 1 : Nat)) : Int)) :=
  ⟨C10_timestamp_truncation.1 c10Input [⟨1000, "2", "3", "1", "2", "7"⟩] rfl
      ⟨1000, "2", "3", "1", "2", "7"⟩ (List.mem_singleton.mpr rfl),
    C10_timestamp_truncation.2 (-19) 1⟩

/-! Claim C2. -/

/-- The exact upstream response named by C2: `low` is bound to the bare string
`"99.8"` while the other five keys are bound to one-element lists. -/
def c2Input : PyVal := .dict [("timestamp", .list [.int 1700000000]),
  ("open", .list [.float 1005 1]), ("high", .list [.int 101]),
  ("low", .str "99.8"), ("close", .list [.float 1009 1]),
  ("volume", .list [.int 2000])]

/-- C2 as stated is false: `zip` iterates the bare string `"99.8"` character
by character, so the single row's low field is `str` of the first character,
`"9"`, not `"99.8"`. -/
theorem C2_counterexample :
    transcode c2Input = .ok [⟨1700000000000, "100.5", "101", "9", "100.9", "2000"⟩] ∧
    transcode c2Input ≠ .ok [⟨1700000000000, "100.5", "101", "99.8", "100.9", "2000"⟩] := by
  constructor
  · rfl
  · decide

/-- C2 amended: on the response with the bare-string `low`, the transcoder
produces exactly one row, with the timestamp scaled to milliseconds, every
OHLCV field serialized as text, and the low field equal to `"9"` — the first
character of the string — because `zip` consumes the string character-wise. -/
theorem C2_string_low_row :
    transcode c2Input = .ok [⟨1700000000000, "100.5", "101", "9", "100.9", "2000"⟩] := rfl

/-! Claim C6. -/

/-- A one-row instrument directory for the C6 scenario. -/
def c6Df : List InstrumentRow := [⟨"RELIANCE", .int 500325, "NSE_EQ", "EQUITY"⟩]

/-- C6 is the intent, but the code is broken on this path: the module never
imports `json`, so when a 2xx upstream body fails to decode, evaluating
`json.JSONDecodeError` in the `except` clause on line 100 raises `NameError`,
which escapes `get_klines`; the caller sees a bare 500 with no JSON `detail`
body describing the decode error. -/
theorem C6_missing_json_import :
    get_klines c6Df 19800 1700000000 (fun _ => .okBody Option.none) "RELIANCE" "5m"
        Option.none Option.none =
      .unhandled "NameError: name \x27json\x27 is not defined" ∧
    hasDetailBody (get_klines c6Df 19800 1700000000 (fun _ => .okBody Option.none) "RELIANCE"
        "5m" Option.none Option.none) = false :=
  ⟨rfl, rfl⟩

/-! Claim C7. -/

/-- A one-row instrument directory for the C7 scenarios. -/
def c7Df : List InstrumentRow := [⟨"TCS", .int 11536, "NSE_EQ", "EQUITY"⟩]

/-- An upstream response whose timestamp column holds a non-numeric string. -/
def c7Bad : PyVal := .dict [("timestamp", .list [.str "abc"]), ("open", .list [.int 1]),
  ("high", .list [.int 1]), ("low", .list [.int 1]), ("close", .list [.int 1]),
  ("volume", .list [.int 1])]

/-- An upstream response missing the `open` key. -/
def c7Missing : PyVal := .dict [("timestamp", .list [.int 5])]

/-- C7 as stated is false: a timestamp value that cannot be coerced because
`int` rejects the string (`int("abc")` raises `ValueError`) is NOT caught by
the `except (KeyError, TypeError)` clause, so the request does not fail with
the 500-with-detail of line 135 — the `ValueError` escapes the function. -/
theorem C7_counterexample :
    get_klines c7Df 19800 1700000000 (fun _ => .okBody (some c7Bad)) "TCS" "5m"
        Option.none Option.none =
      .unhandled "invalid literal for int() with base 10: \x27abc\x27" ∧
    hasDetailBody (get_klines c7Df 19800 1700000000 (fun _ => .okBody (some c7Bad)) "TCS" "5m"
        Option.none Option.none) = false :=
  ⟨rfl, rfl⟩

/-- C7 amended: a transcode failure raising `KeyError` (absent key) or
`TypeError` (value of the wrong type, e.g. `int(None)` or a non-subscriptable
body) is surfaced as HTTP 500 with the detail message of line 135, while a
`ValueError` (a string the `int` parser rejects) escapes unhandled. -/
theorem C7_transcode_errors (df : List InstrumentRow) (off nowEpoch : Int)
    (sym iv : String) (st et : Option Int) (r : InstrumentRow) (d : PyVal) (e : PyExc)
    (hr : lookupInstrument df sym = some r) (hiv : digitsOf iv ≠ "")
    (ht : transcode d = .error e) :
    get_klines df off nowEpoch (fun _ => .okBody (some d)) sym iv st et =
      (if isCaught e then
        KlinesResult.httpError 500 ("Failed to parse DhanHQ response: " ++ excMsg e)
      else KlinesResult.unhandled (excMsg e)) := by
  have hp : parseInterval iv = .ok (digitsOf iv) := by
    unfold parseInterval
    rw [if_neg hiv]
  simp only [get_klines, afterLookup, handleUpstream, hr, hp, ht]

/-- Witness for C7 amended: a response missing the `open` key raises
`KeyError`, which the handler catches and maps to the 500 detail message. -/
theorem C7_transcode_errors_witness :
    get_klines c7Df 19800 1700000000 (fun _ => .okBody (some c7Missing)) "TCS" "5m"
        Option.none Option.none =
      .httpError 500 "Failed to parse DhanHQ response: \x27open\x27" :=
  C7_transcode_errors c7Df 19800 1700000000 "TCS" "5m" Option.none Option.none
    ⟨"TCS", .int 11536, "NSE_EQ", "EQUITY"⟩ c7Missing (.keyError "open") rfl (by decide) rfl

/-! Claim C1. -/

/-- An upstream response whose six keys are all bound to lists, with a
fractional (float) timestamp. -/
def c1Input : PyVal := .dict [("timestamp", .list [.float 15 1]), ("open", .list [.int 1]),
  ("high", .list [.int 1]), ("low", .list [.int 1]), ("close", .list [.int 1]),
  ("volume", .list [.int 1])]

/-- C1 as stated is false on fractional timestamps: the code emits
`int(timestamp[i]) * 1000`, not `timestamp[i] * 1000`.  On the list-valued
response with `timestamp = [1.5]` the produced first element is `1000`, while
the claimed expression `timestamp[0] * 1000` has value `1500`. -/
theorem C1_counterexample :
    transcode c1Input = .ok [⟨1000, "1", "1", "1", "1", "1"⟩] ∧
    (1000 : ℚ) ≠ specNumValue (.float 15 1) * 1000 := by
  refine ⟨rfl, ?_⟩
  simp only [specNumValue]
  norm_num

/-- C1 amended: for every response object binding the six keys to lists, and
provided every timestamp in the zipped prefix is `int`-coercible (otherwise
the transcode fails instead), the transcoder walks the six lists
position-by-position, stopping at the shortest, and produces at position `i`
the row `[int(timestamp[i]) * 1000, str(open[i]), str(high[i]), str(low[i]),
str(close[i]), str(volume[i])]`; the row count is the minimum of the six
lengths. -/
theorem C1_parallel_walk (d : PyVal) (ts os hs ls cs vs : List PyVal)
    (h1 : getItem d "timestamp" = .ok (.list ts)) (h2 : getItem d "open" = .ok (.list os))
    (h3 : getItem d "high" = .ok (.list hs)) (h4 : getItem d "low" = .ok (.list ls))
    (h5 : getItem d "close" = .ok (.list cs)) (h6 : getItem d "volume" = .ok (.list vs))
    (hco : ∀ x ∈ zip6 ts os hs ls cs vs, intCoercible x.1 = true) :
    transcode d = .ok ((zip6 ts os hs ls cs vs).map specRow6) ∧
    ((zip6 ts os hs ls cs vs).map specRow6).length =
      min ts.length (min os.length (min hs.length (min ls.length (min cs.length vs.length)))) := by
  constructor
  · rw [transcode_eq_of_lists d ts os hs ls cs vs h1 h2 h3 h4 h5 h6,
      buildRows_eq_map _ hco]
  · rw [List.length_map, zip6_length]

/-- The six parallel lists of the C1 witness: the timestamp list is one longer
than the rest, so the walk stops at the shortest length, 2. -/
def c1Wts : List PyVal := [.int 1, .int 2, .int 3]

def c1Wos : List PyVal := [.int 10, .int 11]

def c1Whs : List PyVal := [.int 12, .int 13]

def c1Wls : List PyVal := [.int 14, .int 15]

def c1Wcs : List PyVal := [.int 16, .int 17]

def c1Wvs : List PyVal := [.int 18, .int 19]

/-- The C1 witness response object. -/
def c1WInput : PyVal := .dict [("timestamp", .list c1Wts), ("open", .list c1Wos),
  ("high", .list c1Whs), ("low", .list c1Wls), ("close", .list c1Wcs),
  ("volume", .list c1Wvs)]

/-- Witness for the amended C1 at a concrete mismatched-length response. -/
theorem C1_parallel_walk_witness :
    (transcode c1WInput = .ok ((zip6 c1Wts c1Wos c1Whs c1Wls c1Wcs c1Wvs).map specRow6) ∧
      ((zip6 c1Wts c1Wos c1Whs c1Wls c1Wcs c1Wvs).map specRow6).length =
        min c1Wts.length (min c1Wos.length (min c1Whs.length (min c1Wls.length
          (min c1Wcs.length c1Wvs.length))))) ∧
    transcode c1WInput = .ok [⟨1000, "10", "12", "14", "16", "18"⟩,
      ⟨2000, "11", "13", "15", "17", "19"⟩] :=
  ⟨C1_parallel_walk c1WInput c1Wts c1Wos c1Whs c1Wls c1Wcs c1Wvs rfl rfl rfl rfl rfl rfl
      (by decide), rfl⟩

/-! Claim C3. -/

theorem digitsOf_eq_empty (s : String) :
    (digitsOf s = "") ↔ (s.toList.any Char.isDigit = false) := by
  unfold digitsOf
  rw [List.any_eq_false]
  constructor
  · intro h c hc
    have hl : s.toList.filter Char.isDigit = [] := by
      have hd := congrArg String.data h
      simpa using hd
    exact (List.filter_eq_nil_iff.mp hl) c hc
  · intro h
    rw [List.filter_eq_nil_iff.mpr h]

/-- C3: when the interval string contains at least one decimal digit, the
normalizer returns exactly the digit characters in their original order
(`digitsOf`); when it contains none, every request whose symbol resolves is
rejected with HTTP 400 and the invalid-interval detail message. -/
theorem C3_interval_normalization (s : String) :
    (s.toList.any Char.isDigit = true → parseInterval s = .ok (digitsOf s)) ∧
    (s.toList.any Char.isDigit = false →
      ∀ (df : List InstrumentRow) (off nowEpoch : Int) (up : Payload → UpstreamOutcome)
        (sym : String) (st et : Option Int) (r : InstrumentRow),
        lookupInstrument df sym = some r →
        get_klines df off nowEpoch up sym s st et =
          .httpError 400 ("Invalid interval format: \x27" ++ s ++ "\x27")) := by
  constructor
  · intro hd
    have hne : digitsOf s ≠ "" := by
      intro h
      rw [(digitsOf_eq_empty s).mp h] at hd
      exact absurd hd (by decide)
    simp [parseInterval, hne]
  · intro hd df off nowEpoch up sym st et r hr
    have he : digitsOf s = "" := (digitsOf_eq_empty s).mpr hd
    have hp : parseInterval s = .error ("Invalid interval format: \x27" ++ s ++ "\x27") := by
      simp [parseInterval, he]
    simp only [get_klines, afterLookup, hr, hp]

/-- A one-row instrument directory for the C3 witness. -/
def c3Df : List InstrumentRow := [⟨"INFY", .int 1594, "NSE_EQ", "EQUITY"⟩]

/-- An upstream behaviour for the C3 witness (never reached on the 400 path). -/
def c3Up : Payload → UpstreamOutcome := fun _ => .requestError "timeout"

/-- Witness for C3: `"5m"` normalizes to `"5"`; `"abc"` is rejected with 400. -/
theorem C3_interval_normalization_witness :
    (parseInterval "5m" = .ok (digitsOf "5m") ∧ digitsOf "5m" = "5") ∧
    get_klines c3Df 0 0 c3Up "INFY" "abc" Option.none Option.none =
      .httpError 400 ("Invalid interval format: \x27" ++ "abc" ++ "\x27") :=
  ⟨⟨(C3_interval_normalization "5m").1 rfl, rfl⟩,
    (C3_interval_normalization "abc").2 rfl c3Df 0 0 c3Up "INFY" Option.none Option.none
      ⟨"INFY", .int 1594, "NSE_EQ", "EQUITY"⟩ rfl⟩

/-! Claim C4. -/

/-- C4: the caller-supplied bounds are used exactly when both are truthy
(non-null and non-zero); each is then converted from epoch milliseconds to
local wall-clock time.  In every other case — one bound missing, or a bound
equal to zero — the resolver falls through to the default window
`to = now`, `from = to - 30 days`.  Both strings go through
`fmtLocal`, the model of `strftime('%Y-%m-%d %H:%M:%S')`. -/
theorem C4_date_range (off nowEpoch : Int) (startTime endTime : Option Int) :
    (truthy startTime = true → truthy endTime = true →
      resolveDateStrs off nowEpoch startTime endTime =
        (fmtLocal (fromtimestampMs off (startTime.getD 0)),
          fmtLocal (fromtimestampMs off (endTime.getD 0)))) ∧
    (truthy startTime = false ∨ truthy endTime = false →
      resolveDateStrs off nowEpoch startTime endTime =
        (fmtLocal (nowEpoch + off - 30 * 86400), fmtLocal (nowEpoch + off))) := by
  constructor
  · intro h1 h2
    simp [resolveDateStrs, resolveDates, h1, h2]
  · intro h
    have hc : (truthy startTime && truthy endTime) = false := by
      rcases h with h | h <;> simp [h]
    simp [resolveDateStrs, resolveDates, hc]

/-- Witness for C4 at UTC offset +5:30: explicit bounds one day apart resolve
to wall-clock strings one day apart; a missing `endTime` falls through to the
30-day default window. -/
theorem C4_date_range_witness :
    (resolveDateStrs 19800 1700000000 (some 1700000000000) (some 1700086400000) =
        (fmtLocal (fromtimestampMs 19800 ((some (1700000000000 : Int)).getD 0)),
          fmtLocal (fromtimestampMs 19800 ((some (1700086400000 : Int)).getD 0))) ∧
      resolveDateStrs 19800 1700000000 (some 1700000000000) (some 1700086400000) =
        ("2023-11-15 03:43:20", "2023-11-16 03:43:20")) ∧
    (resolveDateStrs 19800 1700000000 (some 1700000000000) Option.none =
        (fmtLocal (1700000000 + 19800 - 30 * 86400), fmtLocal (1700000000 + 19800)) ∧
      resolveDateStrs 19800 1700000000 (some 1700000000000) Option.none =
        ("2023-10-16 03:43:20", "2023-11-15 03:43:20")) :=
  ⟨⟨(C4_date_range 19800 1700000000 (some 1700000000000) (some 1700086400000)).1 rfl rfl,
      rfl⟩,
    ⟨(C4_date_range 19800 1700000000 (some 1700000000000) Option.none).2 (Or.inr rfl), rfl⟩⟩

/-! Claim C5. -/

/-- A successful lookup returns the first row of the dataframe, in source
order, whose `tradingSymbol` equals the requested symbol exactly. -/
theorem lookupInstrument_first (df : List InstrumentRow) (symbol : String) :
    ∀ r, lookupInstrument df symbol = some r →
      ∃ pre post, df = pre ++ r :: post ∧ r.tradingSymbol = symbol ∧
        ∀ x ∈ pre, x.tradingSymbol ≠ symbol := by
  induction df with
  | nil => intro r h; simp [lookupInstrument] at h
  | cons a df ih =>
    intro r h
    by_cases ha : a.tradingSymbol = symbol
    · have hr : a = r := by
        simp [lookupInstrument, List.filter_cons, ha] at h
        exact h
      subst hr
      exact ⟨[], df, rfl, ha, by simp⟩
    · have h' : lookupInstrument df symbol = some r := by
        simpa [lookupInstrument, List.filter_cons, ha] using h
      obtain ⟨pre, post, hdf, hsym, hpre⟩ := ih r h'
      refine ⟨a :: pre, post, by rw [hdf, List.cons_append], hsym, ?_⟩
      intro x hx
      rcases List.mem_cons.mp hx with hxa | hxp
      · rw [hxa]; exact ha
      · exact hpre x hxp

/-- C5: a symbol with no exact, case-sensitive match in the `tradingSymbol`
column is rejected with HTTP 404 and a detail message naming the symbol; a
symbol that is present resolves to the first matching row in source order, and
that row's fields populate the upstream request payload. -/
theorem C5_symbol_lookup (df : List InstrumentRow) (off nowEpoch : Int)
    (up : Payload → UpstreamOutcome) (symbol interval : String) (st et : Option Int) :
    (lookupInstrument df symbol = Option.none →
      get_klines df off nowEpoch up symbol interval st et =
        .httpError 404 ("Instrument with trading symbol \x27" ++ symbol ++ "\x27 not found.")) ∧
    (∀ r, lookupInstrument df symbol = some r →
      (∃ pre post, df = pre ++ r :: post ∧ r.tradingSymbol = symbol ∧
          ∀ x ∈ pre, x.tradingSymbol ≠ symbol) ∧
      (digitsOf interval ≠ "" →
        get_klines df off nowEpoch up symbol interval st et =
          handleUpstream (up (mkPayload r (digitsOf interval)
            (resolveDateStrs off nowEpoch st et).1 (resolveDateStrs off nowEpoch st et).2)))) := by
  constructor
  · intro h
    simp only [get_klines, h]
  · intro r hr
    refine ⟨lookupInstrument_first df symbol r hr, ?_⟩
    intro hiv
    have hp : parseInterval interval = .ok (digitsOf interval) := by
      unfold parseInterval
      rw [if_neg hiv]
    simp only [get_klines, afterLookup, hr, hp]

/-- An instrument directory with two rows sharing the symbol `TCS`, for the
C5 witness. -/
def c5Df : List InstrumentRow :=
  [⟨"RELIANCE", .int 500325, "NSE_EQ", "EQUITY"⟩,
   ⟨"TCS", .int 11536, "NSE_EQ", "EQUITY"⟩,
   ⟨"TCS", .int 99999, "BSE_EQ", "EQUITY"⟩]

/-- The first `TCS` row of `c5Df`. -/
def c5Row : InstrumentRow := ⟨"TCS", .int 11536, "NSE_EQ", "EQUITY"⟩

/-- An upstream behaviour for the C5 witness. -/
def c5Up : Payload → UpstreamOutcome := fun _ => .requestError "connection refused"

/-- Witness for C5: an unknown symbol yields the 404 naming it, and `TCS`
resolves to the first of its two rows. -/
theorem C5_symbol_lookup_witness :
    (get_klines c5Df 0 0 c5Up "ZZZ" "5m" Option.none Option.none =
      .httpError 404 ("Instrument with trading symbol \x27" ++ "ZZZ" ++ "\x27 not found.")) ∧
    ((∃ pre post, c5Df = pre ++ c5Row :: post ∧ c5Row.tradingSymbol = "TCS" ∧
        ∀ x ∈ pre, x.tradingSymbol ≠ "TCS") ∧
      get_klines c5Df 0 0 c5Up "TCS" "5m" Option.none Option.none =
        handleUpstream (c5Up (mkPayload c5Row (digitsOf "5m")
          (resolveDateStrs 0 0 Option.none Option.none).1
          (resolveDateStrs 0 0 Option.none Option.none).2))) :=
  ⟨(C5_symbol_lookup c5Df 0 0 c5Up "ZZZ" "5m" Option.none Option.none).1 rfl,
    ((C5_symbol_lookup c5Df 0 0 c5Up "TCS" "5m" Option.none Option.none).2 c5Row rfl).1,
    ((C5_symbol_lookup c5Df 0 0 c5Up "TCS" "5m" Option.none Option.none).2 c5Row rfl).2
      (by decide)⟩

/-! Claim C8. -/

/-- C8 amended (the all-or-nothing core): whenever the endpoint answers 200,
the returned rows are exactly the output of a transcode that succeeded in
full on the upstream body — a partial row sequence is never returned. -/
theorem C8_all_or_nothing (df : List InstrumentRow) (off nowEpoch : Int)
    (up : Payload → UpstreamOutcome) (sym iv : String) (st et : Option Int)
    (rows : List KlineRow)
    (h : get_klines df off nowEpoch up sym iv st et = .ok rows) :
    ∃ p d, up p = .okBody (some d) ∧ transcode d = .ok rows := by
  cases hl : lookupInstrument df sym with
  | none => simp only [get_klines, hl] at h; exact absurd h (by simp)
  | some r =>
    simp only [get_klines, afterLookup, hl] at h
    cases hp : parseInterval iv with
    | error msg => rw [hp] at h; exact absurd h (by simp)
    | ok parsed =>
      rw [hp] at h
      simp only [handleUpstream] at h
      cases hu : up (mkPayload r parsed (resolveDateStrs off nowEpoch st et).1
          (resolveDateStrs off nowEpoch st et).2) with
      | requestError msg => rw [hu] at h; exact absurd h (by simp)
      | okBody body =>
        cases body with
        | none => rw [hu] at h; exact absurd h (by simp)
        | some d =>
          rw [hu] at h
          cases ht : transcode d with
          | error e =>
            simp only [ht] at h
            cases hce : isCaught e <;> simp [hce] at h
          | ok rows2 =>
            simp only [ht, KlinesResult.ok.injEq] at h
            exact ⟨_, d, hu, by rw [ht, h]⟩

/-- A one-row instrument directory for the C8 scenarios. -/
def c8Df : List InstrumentRow := [⟨"HDFC", .int 1330, "NSE_EQ", "EQUITY"⟩]

/-- A well-formed upstream body for the C8 witness. -/
def c8Good : PyVal := .dict [("timestamp", .list [.int 1700000000]),
  ("open", .list [.float 1011 1]), ("high", .list [.int 102]), ("low", .list [.int 100]),
  ("close", .list [.float 1015 1]), ("volume", .list [.int 3000])]

/-- The upstream behaviour for the C8 witness. -/
def c8Up : Payload → UpstreamOutcome := fun _ => .okBody (some c8Good)

/-- Witness for the amended C8: a fully successful request's 200 body is the
complete transcode of the upstream body. -/
theorem C8_all_or_nothing_witness :
    ∃ p d, c8Up p = .okBody (some d) ∧
      transcode d = .ok [⟨1700000000000, "101.1", "102", "100", "101.5", "3000"⟩] :=
  C8_all_or_nothing c8Df 19800 1700000000 c8Up "HDFC" "15m" Option.none Option.none
    [⟨1700000000000, "101.1", "102", "100", "101.5", "3000"⟩] rfl

/-- C8 as stated is false in its every-failure-has-a-detail-body half: when a
2xx upstream body is not valid JSON, the missing `json` import turns the
decode handler itself into a `NameError`, so the failure escapes with no JSON
`detail` body. -/
theorem C8_counterexample :
    get_klines c8Df 19800 1700000000 (fun _ => .okBody Option.none) "HDFC" "1m"
        Option.none Option.none =
      .unhandled "NameError: name \x27json\x27 is not defined" ∧
    hasDetailBody (get_klines c8Df 19800 1700000000 (fun _ => .okBody Option.none) "HDFC" "1m"
        Option.none Option.none) = false :=
  ⟨rfl, rfl⟩

/-! Claim C9. -/

/-- C9: the symbol is looked up before the interval is validated, so an
unknown symbol yields 404 no matter what the interval is, and a 400 can only
be observed when the symbol resolved. -/
theorem C9_lookup_before_interval (df : List InstrumentRow) (off nowEpoch : Int)
    (up : Payload → UpstreamOutcome) (sym iv : String) (st et : Option Int) :
    (lookupInstrument df sym = Option.none →
      get_klines df off nowEpoch up sym iv st et =
        .httpError 404 ("Instrument with trading symbol \x27" ++ sym ++ "\x27 not found.")) ∧
    (∀ detail, get_klines df off nowEpoch up sym iv st et = .httpError 400 detail →
      ∃ r, lookupInstrument df sym = some r) := by
  constructor
  · intro h
    simp only [get_klines, h]
  · intro detail h
    cases hl : lookupInstrument df sym with
    | none =>
      simp only [get_klines, hl] at h
      exact absurd h (by simp)
    | some r => exact ⟨r, rfl⟩

/-- A one-row instrument directory for the C9 witness. -/
def c9Df : List InstrumentRow := [⟨"SBIN", .int 3045, "NSE_EQ", "EQUITY"⟩]

/-- An upstream behaviour for the C9 witness (never reached). -/
def c9Up : Payload → UpstreamOutcome := fun _ => .okBody Option.none

/-- Witness for C9: an unknown symbol combined with a digitless interval is
answered with the 404, not the 400. -/
theorem C9_lookup_before_interval_witness :
    get_klines c9Df 0 0 c9Up "NOPE" "abc" Option.none Option.none =
      .httpError 404 ("Instrument with trading symbol \x27" ++ "NOPE" ++ "\x27 not found.") :=
  (C9_lookup_before_interval c9Df 0 0 c9Up "NOPE" "abc" Option.none Option.none).1 rfl

end DhanRest
